import Mathlib

/-!
Shallow embedding of the `epicweb-dev/weather-mcp` repository.

The repository contains three near-duplicate variants of one MCP tool:
  * `src/index.ts` — Open-Meteo coordinate variant (`WeatherMCP`): required
    latitude/longitude parameters, zod-validated weather response, a
    Celsius-to-Fahrenheit conversion helper and a fixed four-bullet text block;
  * the AccuWeather variant (`WeatherMCP` with `ACCUWEATHER_API_KEY`):
    optional latitude/longitude with an ambient-request fallback, dual-unit
    temperatures from the provider, humidity/wind bullets included by JS
    truthiness of the field;
  * the country variant (`CoutryWeatherMCP`): free-text country geocoding with
    a `CF-IPCountry` header fallback.

JSON / JS numbers are modelled as rationals (every JSON numeric literal is a
decimal, hence a rational); strings as Lean `String`; thrown JS values and
JSON documents by small inductive types.  Handlers are modelled as pure
functions from the request parameters, the ambient request context, the
environment and the (pre-supplied) upstream responses to a `ToolResult`
together with the list of outbound HTTP calls performed, in order.
-/

namespace WeatherMcp

/-! ### JS number rendering

`Number.prototype.toFixed(1)` (ECMA-262): for negative input the sign is
peeled off first, then the integer `n` with `n / 10` closest to the magnitude
is chosen, ties going to the larger `n` — i.e. round half away from zero.
Template-literal interpolation `${x}` prints a number as its shortest
round-tripping decimal; for the terminating-decimal rationals that model JSON
numeric literals this is the exact decimal expansion (at most 17 fractional
digits for any double), which `jsNumStr` computes with fuel 17; rationals with
a non-terminating expansion do not arise from JSON numbers. -/

/-- Integer chosen by `toFixed(1)` for the magnitude `|q|`: the `n` with
`n / 10` closest to `|q|`, ties to the larger `n`. -/
def jsToFixed1Mag (q : ℚ) : ℤ := ⌊10 * |q| + 1 / 2⌋

/-- Numeric value displayed by `x.toFixed(1)` (sign times magnitude in
tenths). -/
def jsToFixed1Val (q : ℚ) : ℚ :=
  (if q < 0 then -(jsToFixed1Mag q) else jsToFixed1Mag q : ℤ) / 10

/-- String produced by `x.toFixed(1)`. -/
def jsToFixed1Str (q : ℚ) : String :=
  (if q < 0 then "-" else "")
    ++ toString (jsToFixed1Mag q / 10) ++ "." ++ toString (jsToFixed1Mag q % 10)

/-- Fractional digits of a rational in `[0,1)`, with fuel; stops at the
first all-zero remainder. -/
def fracDigits : ℚ → ℕ → List Char
  | _, 0 => []
  | x, n + 1 =>
    if x = 0 then []
    else
      let y := 10 * x
      let d := ⌊y⌋
      Char.ofNat (48 + d.toNat) :: fracDigits (y - d) n

/-- String produced by template interpolation `${x}` for a JS number holding
the terminating-decimal rational `q` (exact shortest decimal). -/
def jsNumStr (q : ℚ) : String :=
  let sgn := if q < 0 then "-" else ""
  let ip := (⌊|q|⌋).toNat
  let fr := |q| - ⌊|q|⌋
  if fr = 0 then sgn ++ toString ip
  else sgn ++ toString ip ++ "." ++ String.mk (fracDigits fr 17)

/-- JS `String.prototype.trim()`: drop whitespace from both ends. -/
def jsTrim (s : String) : String :=
  ⟨((s.data.dropWhile Char.isWhitespace).reverse.dropWhile Char.isWhitespace).reverse⟩

/-- Lines of a text payload: split on the newline character. -/
def textLines (s : String) : List String :=
  (s.data.splitOn '\n').map fun l => ⟨l⟩

/-- Whether `p` is an initial segment of `s` (character-level `startsWith`). -/
def beginsWith : List Char → List Char → Bool
  | [], _ => true
  | _ :: _, [] => false
  | p :: ps, c :: cs => p == c && beginsWith ps cs

/-- Whether two character lists disagree at some position common to both
(which forces `beginsWith` to fail however the second is extended). -/
def charsClash : List Char → List Char → Bool
  | p :: ps, c :: cs => p != c || charsClash ps cs
  | _, _ => false

/-! ### Condition-code table (`getWeatherDescription`)

Both the Open-Meteo coordinate variant and the country variant carry the same
static `weatherCodes` record; the lookup `weatherCodes[code] || 'Unknown'`
falls back to `'Unknown'` when the key is absent (`undefined`) or the stored
value is falsy (empty string). -/

/-- Static WMO weather-code table, in source order. -/
def weatherCodes : List (ℤ × String) :=
  [(0, "Clear sky"), (1, "Mainly clear"), (2, "Partly cloudy"), (3, "Overcast"),
   (45, "Foggy"), (48, "Depositing rime fog"),
   (51, "Light drizzle"), (53, "Moderate drizzle"), (55, "Dense drizzle"),
   (56, "Light freezing drizzle"), (57, "Dense freezing drizzle"),
   (61, "Slight rain"), (63, "Moderate rain"), (65, "Heavy rain"),
   (66, "Light freezing rain"), (67, "Heavy freezing rain"),
   (71, "Slight snow fall"), (73, "Moderate snow fall"), (75, "Heavy snow fall"),
   (77, "Snow grains"),
   (80, "Slight rain showers"), (81, "Moderate rain showers"),
   (82, "Violent rain showers"),
   (85, "Slight snow showers"), (86, "Heavy snow showers"),
   (95, "Thunderstorm"), (96, "Thunderstorm with slight hail"),
   (99, "Thunderstorm with heavy hail")]

/-- Model of `getWeatherDescription`: `weatherCodes[code] || 'Unknown'`
(absent key gives `undefined`, and a falsy — empty — table value would also
fall through to `'Unknown'`). -/
def getWeatherDescription (code : ℤ) : String :=
  match weatherCodes.lookup code with
  | some s => if s = "" then "Unknown" else s
  | none => "Unknown"

/-! ### Error normalization (`getErrorMessage`) -/

/-- Model of a JS value reaching the `catch` boundary.  `vObj m` is a value
with `typeof === 'object'` other than `null`, whose `message` property is
`m` (`none` = absent); `vFunc` likewise with `typeof === 'function'`. -/
inductive ErrVal where
  | vStr (s : String)
  | vNum (q : ℚ)
  | vBool (b : Bool)
  | vNull
  | vUndefined
  | vObj (message : Option ErrVal)
  | vFunc (message : Option ErrVal)

/-- Model of `getErrorMessage`.  First branch: `typeof error === 'string'`.
Second branch: `error && typeof error === 'object' && 'message' in error &&
typeof error.message === 'string'` — `vObj` is truthy and of typeof
`'object'`, `null` is excluded by the truthiness conjunct, and a function
value fails the `typeof error === 'object'` conjunct.  Everything else logs
and returns `'Unknown Error'`. -/
def getErrorMessage : ErrVal → String
  | .vStr s => s
  | .vObj (some (.vStr m)) => m
  | _ => "Unknown Error"

/-- Modelled from the spec's words (section 4.5 / claim C6): use the string
`message` field verbatim when the failure is an object carrying one, use a
plain-string failure itself, and return exactly `"Unknown Error"` in every
other case. -/
def errorMessageSpec : ErrVal → String
  | .vObj (some (.vStr m)) => m
  | .vStr s => s
  | _ => "Unknown Error"

/-! ### Tool results and outbound HTTP calls -/

/-- Result envelope of a `getWeather` invocation: the single text content
item, plus whether `isError: true` was set (the success branch omits the
field, modelled as `false`). -/
structure ToolResult where
  isError : Bool
  text : String
deriving DecidableEq, Repr

/-- Outbound HTTP calls the handlers can make, one constructor per `fetch`
site. -/
inductive HttpCall where
  | nominatimReverse
  | openMeteoForecast
  | accuGeoposition
  | accuCurrentConditions
  | openMeteoGeocoding
deriving DecidableEq, Repr

/-- Temperature unit parameter; the zod schema restricts it to these two
values and defaults to fahrenheit, so handlers receive it already defaulted. -/
inductive TempUnit where
  | celsius
  | fahrenheit
deriving DecidableEq, Repr

/-- Degree-suffix chosen by `unit === 'fahrenheit' ? 'F' : 'C'`. -/
def unitSuffix : TempUnit → String
  | .fahrenheit => "F"
  | .celsius => "C"

/-! ### Open-Meteo coordinate variant (`src/index.ts`) -/

/-- Validated `current` block of the Open-Meteo response
(`weatherResultSchema`): all four fields are required numbers. -/
structure OmCurrent where
  temperature_2m : ℚ
  relative_humidity_2m : ℚ
  wind_speed_10m : ℚ
  weather_code : ℤ
deriving DecidableEq, Repr

/-- Model of `celsiusToFahrenheit`. -/
def celsiusToFahrenheit (celsius : ℚ) : ℚ :=
  celsius * 9 / 5 + 32

/-- The `temperature` constant of the handler: converted when the requested
unit is fahrenheit, the raw provider reading otherwise.  Full precision; the
one-decimal rounding happens only in the template via `.toFixed(1)`. -/
def omTemperature (temperature_2m : ℚ) (unit : TempUnit) : ℚ :=
  match unit with
  | .fahrenheit => celsiusToFahrenheit temperature_2m
  | .celsius => temperature_2m

/-- Temperature bullet of the Open-Meteo template
(`• Temperature: ${temperature.toFixed(1)}°${unit === 'fahrenheit' ? 'F' : 'C'}`). -/
def omTempLine (temperature_2m : ℚ) (unit : TempUnit) : String :=
  "• Temperature: " ++ jsToFixed1Str (omTemperature temperature_2m unit)
    ++ "°" ++ unitSuffix unit

/-- Numeric value shown in the Open-Meteo temperature bullet (the value the
rendered `toFixed(1)` string denotes). -/
def omShownTemperature (temperature_2m : ℚ) (unit : TempUnit) : ℚ :=
  jsToFixed1Val (omTemperature temperature_2m unit)

/-- Lines of the Open-Meteo template literal, in order: the leading empty
line after the opening backtick, the header, the four bullets, and the
closing indentation line before `.trim()`. -/
def omFormatLines (city country : String) (cur : OmCurrent) (unit : TempUnit) :
    List String :=
  ["",
   "Weather in " ++ city ++ ", " ++ country ++ ":",
   omTempLine cur.temperature_2m unit,
   "• Humidity: " ++ jsNumStr cur.relative_humidity_2m ++ "%",
   "• Wind Speed: " ++ jsNumStr cur.wind_speed_10m ++ " km/h",
   "• Conditions: " ++ getWeatherDescription cur.weather_code,
   "\t\t\t\t\t\t\t\t"]

/-- Full text payload of the Open-Meteo success branch: the template literal
joined by newlines, then `.trim()`. -/
def omFormatText (city country : String) (cur : OmCurrent) (unit : TempUnit) :
    String :=
  jsTrim (String.intercalate "\n" (omFormatLines city country cur unit))

/-! ### AccuWeather variant -/

/-- One `{ Value, Unit }` pair of the AccuWeather response. -/
structure MeasuredValue where
  Value : ℚ
  Unit : String
deriving DecidableEq, Repr

/-- Metric/imperial pair (`Temperature`, `Wind.Speed`). -/
structure DualUnit where
  Metric : MeasuredValue
  Imperial : MeasuredValue
deriving DecidableEq, Repr

/-- The optional `Wind` object of `accuWeatherCurrentConditionsSchema`. -/
structure AccuWind where
  Speed : DualUnit
deriving DecidableEq, Repr

/-- Validated AccuWeather current-conditions object
(`accuWeatherCurrentConditionsSchema`): `RelativeHumidity` and `Wind` are
optional. -/
structure AccuConditions where
  WeatherText : String
  Temperature : DualUnit
  RelativeHumidity : Option ℚ
  Wind : Option AccuWind
deriving DecidableEq, Repr

/-- Validated AccuWeather geoposition result (`accuWeatherLocationSchema`),
flattened: `Key`, `LocalizedName`, `Country.LocalizedName`. -/
structure AccuLocation where
  Key : String
  LocalizedName : String
  CountryLocalizedName : String
deriving DecidableEq, Repr

/-- The `temperature` constant of the AccuWeather handler: the provider's
imperial reading for fahrenheit, its metric reading for celsius. -/
def accuTemperature (t : DualUnit) (unit : TempUnit) : ℚ :=
  match unit with
  | .fahrenheit => t.Imperial.Value
  | .celsius => t.Metric.Value

/-- Humidity line of the AccuWeather template:
`${weatherData.RelativeHumidity ? \x7b• Humidity: ...%\x7d : ''}` — included by
JS truthiness of the value, so an absent field and a present `0` both yield
the empty string (and the surrounding template newlines remain either way). -/
def accuHumidityLine (h : Option ℚ) : String :=
  match h with
  | some v => if v = 0 then "" else "• Humidity: " ++ jsNumStr v ++ "%"
  | none => ""

/-- Wind line of the AccuWeather template: a present `Wind` object is always
truthy, an absent one yields the empty string. -/
def accuWindLine (w : Option AccuWind) : String :=
  match w with
  | some wd =>
    "• Wind Speed: " ++ jsNumStr wd.Speed.Metric.Value ++ " " ++ wd.Speed.Metric.Unit
  | none => ""

/-- Lines of the AccuWeather template literal, in order (leading empty line,
header, temperature bullet, the two conditional lines, conditions bullet,
closing indentation). -/
def accuFormatLines (city country : String) (cond : AccuConditions)
    (unit : TempUnit) : List String :=
  ["",
   "Weather in " ++ city ++ ", " ++ country ++ ":",
   "• Temperature: " ++ jsToFixed1Str (accuTemperature cond.Temperature unit)
     ++ "°" ++ unitSuffix unit,
   accuHumidityLine cond.RelativeHumidity,
   accuWindLine cond.Wind,
   "• Conditions: " ++ cond.WeatherText,
   "\t\t\t\t\t\t\t\t"]

/-- Full text payload of the AccuWeather success branch (template joined by
newlines, then `.trim()`). -/
def accuFormatText (city country : String) (cond : AccuConditions)
    (unit : TempUnit) : String :=
  jsTrim (String.intercalate "\n" (accuFormatLines city country cond unit))

/-- Explicit tool parameters of the AccuWeather `getWeather` tool: optional
coordinates (zod `z.coerce.number().optional()`), unit already defaulted. -/
structure AccuParams where
  latitude : Option ℚ
  longitude : Option ℚ
  unit : TempUnit
deriving DecidableEq, Repr

/-- Ambient request context: the geolocation hint
`requestStorage.getStore()?.cf?.latitude/longitude`; `none` covers a missing
store, a missing `cf` object and a missing coordinate (anything for which
`typeof` is not `'number'`). -/
structure AmbientGeo where
  latitude : Option ℚ
  longitude : Option ℚ
deriving DecidableEq, Repr

/-- Process-wide environment of the AccuWeather worker; the binding may be
absent (`none`) or bound, and `invariant(apiKey, ...)` tests JS truthiness,
so an empty string also fails. -/
structure AccuEnv where
  ACCUWEATHER_API_KEY : Option String
deriving DecidableEq, Repr

/-- JS truthiness of the environment's API-key binding. -/
def apiKeyTruthy (env : AccuEnv) : Bool :=
  match env.ACCUWEATHER_API_KEY with
  | some s => s != ""
  | none => false

/-- Nullish coalescing `explicit ?? ambient` on coordinates: the explicit
parameter wins whenever present (also when `0`), else the ambient hint. -/
def resolveCoord (explicit ambient : Option ℚ) : Option ℚ :=
  match explicit with
  | some v => some v
  | none => ambient

/-- Pre-supplied outcomes of the two upstream calls: `getLocationKey` and
`getCurrentConditions` either return a schema-validated value or throw a JS
value (network error or `ZodError`). -/
structure AccuUpstream where
  location : Except ErrVal AccuLocation
  conditions : Except ErrVal AccuConditions

/-- ToolResult of the catch branch: `isError: true` with
`getErrorMessage(error)` as text. -/
def caughtResult (e : ErrVal) : ToolResult :=
  { isError := true, text := getErrorMessage e }

/-- Thrown `InvariantError` of `@epic-web/invariant`: an object whose string
`message` field is the given message. -/
def invariantError (msg : String) : ErrVal :=
  .vObj (some (.vStr msg))

/-- Model of the AccuWeather `getWeather` handler: resolve coordinates with
the ambient fallback (`latitude ?? requestStorage.getStore()?.cf?.latitude`),
run the three `invariant` checks, then perform the two upstream calls in
order; every throw is caught at the tool boundary and rendered through
`getErrorMessage`.  Returns the `ToolResult` and the outbound HTTP calls
made, in order. -/
def accuGetWeather (p : AccuParams) (amb : AmbientGeo) (env : AccuEnv)
    (up : AccuUpstream) : ToolResult × List HttpCall :=
  match resolveCoord p.latitude amb.latitude with
  | none =>
    (caughtResult (invariantError "Latitude is required and could not be found"), [])
  | some _ =>
    match resolveCoord p.longitude amb.longitude with
    | none =>
      (caughtResult (invariantError "Longitude is required and could not be found"), [])
    | some _ =>
      if apiKeyTruthy env = false then
        (caughtResult (invariantError "ACCUWEATHER_API_KEY is required"), [])
      else
        match up.location with
        | .error e => (caughtResult e, [.accuGeoposition])
        | .ok loc =>
          match up.conditions with
          | .error e => (caughtResult e, [.accuGeoposition, .accuCurrentConditions])
          | .ok cond =>
            ({ isError := false,
               text := accuFormatText loc.LocalizedName loc.CountryLocalizedName
                 cond p.unit },
             [.accuGeoposition, .accuCurrentConditions])

/-! ### Country variant (`CoutryWeatherMCP`) -/

/-- One entry of the geocoding `results` array (the fields the handler
reads). -/
structure GeoEntry where
  name : String
  latitude : ℚ
  longitude : ℚ
  country : String
deriving DecidableEq, Repr

/-- Geocoding response as used by the country handler.  The response is cast
(`as GeocodingResult`) without validation, so `results` may be absent
(`none`) or any array. -/
structure GeoData where
  results : Option (List GeoEntry)
deriving DecidableEq, Repr

/-- Weather response of the country handler, also an unvalidated cast, so
`current` may be absent. -/
structure CountryWx where
  current : Option OmCurrent
deriving DecidableEq, Repr

/-- Text payload of the country variant's success branch: no `.trim()`, the
template starts directly at the header and the temperature is interpolated
raw (no `toFixed`), always in Celsius. -/
def countryFormatText (entry : GeoEntry) (cur : OmCurrent) : String :=
  String.intercalate "\n"
    ["Weather in " ++ entry.name ++ ", " ++ entry.country ++ ":",
     "• Temperature: " ++ jsNumStr cur.temperature_2m ++ "°C",
     "• Humidity: " ++ jsNumStr cur.relative_humidity_2m ++ "%",
     "• Wind Speed: " ++ jsNumStr cur.wind_speed_10m ++ " km/h",
     "• Conditions: " ++ getWeatherDescription cur.weather_code]

/-- Country resolved by `country ??= request?.headers.get('CF-IPCountry') ??
undefined`: the explicit parameter wins, else the ambient header (`none` when
the store, the request or the header is absent). -/
def resolveCountry (countryParam : Option String) (ambientHeader : Option String) :
    Option String :=
  match countryParam with
  | some c => some c
  | none => ambientHeader

/-- Continuation of the country handler once a (possibly empty) country
string has been resolved: the truthiness check `if (!country)`, the geocoding
call with its `results?.[0]` guard, then the forecast call with its
`weatherData.current` guard. -/
def countryAfterResolve (c : String) (geo : GeoData) (wx : CountryWx) :
    ToolResult × List HttpCall :=
  if c = "" then ({ isError := true, text := "Country not detected" }, [])
  else
    match geo.results with
    | none => ({ isError := true, text := "Country not found" }, [.openMeteoGeocoding])
    | some [] =>
      ({ isError := true, text := "Country not found" }, [.openMeteoGeocoding])
    | some (entry :: _) =>
      match wx.current with
      | none =>
        ({ isError := true, text := "Weather data not available" },
         [.openMeteoGeocoding, .openMeteoForecast])
      | some cur =>
        ({ isError := false, text := countryFormatText entry cur },
         [.openMeteoGeocoding, .openMeteoForecast])

/-- Model of the country `getWeather` handler: resolve the country name with
the `CF-IPCountry` fallback, then continue with `countryAfterResolve`.
Returns the `ToolResult` and the outbound HTTP calls made, in order. -/
def countryGetWeather (countryParam : Option String)
    (ambientHeader : Option String) (geo : GeoData) (wx : CountryWx) :
    ToolResult × List HttpCall :=
  match resolveCountry countryParam ambientHeader with
  | none => ({ isError := true, text := "Country not detected" }, [])
  | some c => countryAfterResolve c geo wx

/-! ### zod validation of the Open-Meteo response (`weatherResultSchema`)

Claim C10 is about the interplay of `weatherResultSchema.parse` and the
`if (!weatherData?.current)` guard right after it, so the parse is modelled
at the JSON level: `z.object` accepts only a non-null non-array object,
requires each declared key, and returns a fresh object containing exactly the
declared keys (zod's default strip mode). -/

/-- JSON values as delivered by `response.json()`. -/
inductive Json where
  | num (q : ℚ)
  | str (s : String)
  | bool (b : Bool)
  | null
  | arr (items : List Json)
  | obj (fields : List (String × Json))

/-- Property lookup on a JSON object (objects produced by `JSON.parse` have
unique keys); `none` on non-objects and absent keys, matching optional
chaining `weatherData?.current`. -/
def jsField (j : Json) (k : String) : Option Json :=
  match j with
  | .obj fields => fields.lookup k
  | _ => none

/-- JS truthiness of a JSON value. -/
def jsonTruthy (j : Json) : Bool :=
  match j with
  | .num q => q != 0
  | .str s => s != ""
  | .bool b => b
  | .null => false
  | .arr _ => true
  | .obj _ => true

/-- JS truthiness of a possibly-absent value (`undefined` is falsy). -/
def optJsonTruthy (j : Option Json) : Bool :=
  match j with
  | some v => jsonTruthy v
  | none => false

/-- Parse of the inner `current` object: four required `z.number()` fields;
returns the stripped validated object. -/
def parseOmCurrentJson (j : Json) : Option Json :=
  match j with
  | .obj fields =>
    match fields.lookup "temperature_2m", fields.lookup "relative_humidity_2m",
        fields.lookup "wind_speed_10m", fields.lookup "weather_code" with
    | some (.num t), some (.num h), some (.num w), some (.num c) =>
      some (.obj [("temperature_2m", .num t), ("relative_humidity_2m", .num h),
                  ("wind_speed_10m", .num w), ("weather_code", .num c)])
    | _, _, _, _ => none
  | _ => none

/-- Model of `weatherResultSchema.parse`: requires a `current` key holding a
valid current object; `none` models a thrown `ZodError`. -/
def weatherResultSchemaParse (j : Json) : Option Json :=
  match j with
  | .obj fields =>
    match fields.lookup "current" with
    | some cj => (parseOmCurrentJson cj).map fun c => Json.obj [("current", c)]
    | none => none
  | _ => none

/-- The guard `if (!weatherData?.current)` evaluated on the parsed value. -/
def omMissingCurrentGuard (weatherData : Json) : Bool :=
  !optJsonTruthy (jsField weatherData "current")

/-- Error result the guard branch would return, `none` when the guard is not
taken. -/
def omGuardResult (weatherData : Json) : Option ToolResult :=
  if omMissingCurrentGuard weatherData then
    some { isError := true, text := "Weather data not available or invalid API response" }
  else none

/-- Concrete AccuWeather observation with an absent `RelativeHumidity` and a
present `Wind`, used to exercise the conditional humidity line. -/
def c2FailingInput : AccuConditions :=
  { WeatherText := "Overcast",
    Temperature := { Metric := { Value := 15, Unit := "C" },
                     Imperial := { Value := 59, Unit := "F" } },
    RelativeHumidity := none,
    Wind := some { Speed := { Metric := { Value := 15, Unit := "km/h" },
                              Imperial := { Value := 93/10, Unit := "mi/h" } } } }

/-- Concrete AccuWeather observation whose `RelativeHumidity` is present with
value `0`. -/
def zeroHumidityInput : AccuConditions :=
  { WeatherText := "Clear sky",
    Temperature := { Metric := { Value := 20, Unit := "C" },
                     Imperial := { Value := 68, Unit := "F" } },
    RelativeHumidity := some 0,
    Wind := none }

/-- Concrete Open-Meteo JSON response body with a well-formed `current`
block. -/
def sampleWeatherJson : Json :=
  .obj [("current",
    .obj [("temperature_2m", .num 15), ("relative_humidity_2m", .num 70),
          ("wind_speed_10m", .num 12), ("weather_code", .num 3)])]

/-- Value `weatherResultSchemaParse` produces on `sampleWeatherJson`. -/
def sampleWeatherParsed : Json :=
  .obj [("current",
    .obj [("temperature_2m", .num 15), ("relative_humidity_2m", .num 70),
          ("wind_speed_10m", .num 12), ("weather_code", .num 3)])]

/-! ## Helper lemmas -/

/-- Unfolds `jsToFixed1Str` for a nonnegative argument. -/
theorem jsToFixed1Str_of_nonneg (q : ℚ) (h : 0 ≤ q) :
    jsToFixed1Str q
      = toString (⌊10 * q + 1 / 2⌋ / 10) ++ "." ++ toString (⌊10 * q + 1 / 2⌋ % 10) := by
  unfold jsToFixed1Str jsToFixed1Mag
  rw [abs_of_nonneg h, if_neg (not_lt.mpr h)]
  simp

/-- Unfolds `jsNumStr` on a nonnegative integral rational. -/
theorem jsNumStr_of_nonneg_int (q : ℚ) (n : ℤ) (h : 0 ≤ q) (hq : q = (n : ℚ)) :
    jsNumStr q = toString n.toNat := by
  subst hq
  unfold jsNumStr
  rw [abs_of_nonneg h, if_neg (not_lt.mpr h)]
  norm_num

/-- Association-list lookup misses every key outside the key column. -/
theorem lookup_eq_none_of_not_mem_keys {α β : Type} [BEq α] [LawfulBEq α]
    (l : List (α × β)) (k : α) (h : k ∉ l.map Prod.fst) : l.lookup k = none := by
  induction l with
  | nil => rfl
  | cons e t ih =>
    simp only [List.map_cons, List.mem_cons] at h
    push_neg at h
    simp only [List.lookup, beq_eq_false_iff_ne.mpr h.1]
    exact ih h.2

/-- A clash below the common length falsifies `beginsWith` for every
extension of the second list. -/
theorem beginsWith_eq_false_of_clash (p a b : List Char)
    (h : charsClash p a = true) : beginsWith p (a ++ b) = false := by
  induction p generalizing a with
  | nil => cases a <;> simp [charsClash] at h
  | cons x ps ih =>
    cases a with
    | nil => simp [charsClash] at h
    | cons y t =>
      simp only [charsClash, Bool.or_eq_true, bne_iff_ne] at h
      rcases h with h | h
      · simp [beginsWith, h]
      · simp only [List.cons_append, beginsWith, Bool.and_eq_false_iff]
        exact Or.inr (ih t h)

/-- Nullish coalescing with an absent explicit value yields the ambient
value. -/
theorem resolveCoord_none (a : Option ℚ) : resolveCoord none a = a := rfl

/-- A successful parse of the inner `current` schema always yields a JSON
object. -/
theorem parseOmCurrentJson_shape (j c : Json) (h : parseOmCurrentJson j = some c) :
    ∃ fs, c = Json.obj fs := by
  cases j with
  | obj fields =>
    simp only [parseOmCurrentJson] at h
    split at h
    · exact ⟨_, (Option.some.inj h).symm⟩
    · simp at h
  | num q => simp [parseOmCurrentJson] at h
  | str s => simp [parseOmCurrentJson] at h
  | bool b => simp [parseOmCurrentJson] at h
  | null => simp [parseOmCurrentJson] at h
  | arr items => simp [parseOmCurrentJson] at h

/-! ## Claims -/

/-- C1 (amended): in the Open-Meteo coordinate variant the temperature shown
in the formatted output is, for unit fahrenheit, `C * 9/5 + 32` rounded to
one decimal place (JS `toFixed(1)`), and for unit celsius the raw Celsius
reading likewise rounded to one decimal place; the underlying `temperature`
value stays full precision (the conversion and rounding are applied for
display only). -/
theorem tempDisplayRounding (c : ℚ) (unit : TempUnit) :
    omShownTemperature c TempUnit.fahrenheit = jsToFixed1Val (c * 9 / 5 + 32)
    ∧ omShownTemperature c TempUnit.celsius = jsToFixed1Val c
    ∧ omTemperature c TempUnit.fahrenheit = c * 9 / 5 + 32
    ∧ omTemperature c TempUnit.celsius = c
    ∧ omTempLine c unit
        = "• Temperature: " ++ jsToFixed1Str (omTemperature c unit) ++ "°"
            ++ unitSuffix unit :=
  ⟨rfl, rfl, rfl, rfl, rfl⟩

/-- C1 (counterexample to the claim as stated): for the provider Celsius
reading 15.25 with unit celsius, the displayed temperature is 15.3, not the
raw reading — `.toFixed(1)` is applied to the celsius branch as well. -/
theorem tempDisplayRounding_counterexample :
    omShownTemperature (61/4) TempUnit.celsius = 153/10
    ∧ ((153 : ℚ)/10) ≠ 61/4
    ∧ omTempLine (61/4) TempUnit.celsius = "• Temperature: 15.3°C" := by
  have hmag : jsToFixed1Mag ((61:ℚ)/4) = 153 := by
    unfold jsToFixed1Mag
    rw [abs_of_nonneg (by norm_num : (0:ℚ) ≤ 61/4)]
    norm_num
  refine ⟨?_, by norm_num, ?_⟩
  · show jsToFixed1Val ((61:ℚ)/4) = 153/10
    unfold jsToFixed1Val
    rw [hmag, if_neg (by norm_num : ¬ ((61:ℚ)/4) < 0)]
    norm_num
  · show "• Temperature: " ++ jsToFixed1Str ((61:ℚ)/4) ++ "°" ++ "C"
      = "• Temperature: 15.3°C"
    rw [jsToFixed1Str_of_nonneg ((61:ℚ)/4) (by norm_num)]
    have h153 : (⌊10 * ((61:ℚ)/4) + 1 / 2⌋ : ℤ) = 153 := by norm_num
    rw [h153]
    decide

/-- C2 (code evaluated at the failing input): with `RelativeHumidity` absent
and `Wind` present, the AccuWeather formatted output keeps the newlines
around the emptied humidity interpolation, so the text contains a blank
placeholder line between the temperature and wind bullets — contradicting
the claimed contract that absent optional fields leave no empty line. -/
theorem absentHumidityLeavesBlankLine :
    accuFormatText "London" "United Kingdom" c2FailingInput TempUnit.fahrenheit
      = "Weather in London, United Kingdom:\n• Temperature: 59.0°F\n\n• Wind Speed: 15 km/h\n• Conditions: Overcast"
    ∧ c2FailingInput.RelativeHumidity = none
    ∧ "" ∈ textLines
        (accuFormatText "London" "United Kingdom" c2FailingInput TempUnit.fahrenheit) := by
  have h1 : jsToFixed1Str (59 : ℚ) = "59.0" := by
    rw [jsToFixed1Str_of_nonneg 59 (by norm_num)]
    have h590 : (⌊10 * (59 : ℚ) + 1 / 2⌋ : ℤ) = 590 := by norm_num
    rw [h590]
    decide
  have h2 : jsNumStr (15 : ℚ) = "15" := by
    rw [jsNumStr_of_nonneg_int 15 15 (by norm_num) (by norm_num)]
    decide
  have h3 : accuFormatText "London" "United Kingdom" c2FailingInput TempUnit.fahrenheit
      = "Weather in London, United Kingdom:\n• Temperature: 59.0°F\n\n• Wind Speed: 15 km/h\n• Conditions: Overcast" := by
    show jsTrim (String.intercalate "\n"
      ["", "Weather in " ++ "London" ++ ", " ++ "United Kingdom" ++ ":",
       "• Temperature: " ++ jsToFixed1Str (59 : ℚ) ++ "°" ++ "F",
       "", "• Wind Speed: " ++ jsNumStr (15 : ℚ) ++ " " ++ "km/h",
       "• Conditions: " ++ "Overcast", "\t\t\t\t\t\t\t\t"]) = _
    rw [h1, h2]
    decide
  exact ⟨h3, rfl, by rw [h3]; decide⟩

/-- C3: the code-to-description function is total (it is a Lean function and
never throws); its key column is exactly the static table of the claim, every
tabulated code maps to exactly the table string, and every other integer maps
to exactly "Unknown". -/
theorem conditionCodeTable :
    weatherCodes.map Prod.fst
      = [0, 1, 2, 3, 45, 48, 51, 53, 55, 56, 57, 61, 63, 65, 66, 67, 71, 73,
         75, 77, 80, 81, 82, 85, 86, 95, 96, 99]
    ∧ (∀ p ∈ weatherCodes, getWeatherDescription p.1 = p.2)
    ∧ (∀ code : ℤ, code ∉ weatherCodes.map Prod.fst →
        getWeatherDescription code = "Unknown") := by
  refine ⟨by decide, by decide, ?_⟩
  intro code h
  unfold getWeatherDescription
  rw [lookup_eq_none_of_not_mem_keys weatherCodes code h]

/-- C3 witness: the table hit 3 ↦ "Overcast" and the miss 42 ↦ "Unknown". -/
theorem conditionCodeTable_witness :
    ((3, "Overcast") ∈ weatherCodes ∧ getWeatherDescription 3 = "Overcast")
    ∧ ((42 : ℤ) ∉ weatherCodes.map Prod.fst ∧ getWeatherDescription 42 = "Unknown") :=
  ⟨⟨by decide, conditionCodeTable.2.1 (3, "Overcast") (by decide)⟩,
   ⟨by decide, conditionCodeTable.2.2 42 (by decide)⟩⟩

/-- C4: when latitude (resp. longitude) is absent from both the explicit
parameters and the ambient request context, the AccuWeather handler returns
`isError: true` with the invariant message naming the missing coordinate, and
the list of outbound HTTP calls is empty. -/
theorem missingCoordinateFailure (p : AccuParams) (amb : AmbientGeo) (env : AccuEnv)
    (up : AccuUpstream) :
    (p.latitude = none → amb.latitude = none →
      accuGetWeather p amb env up
        = ({ isError := true, text := "Latitude is required and could not be found" }, []))
    ∧ (p.longitude = none → amb.longitude = none →
      (accuGetWeather p amb env up).1.isError = true
      ∧ ((accuGetWeather p amb env up).1.text = "Latitude is required and could not be found"
         ∨ (accuGetWeather p amb env up).1.text = "Longitude is required and could not be found")
      ∧ (accuGetWeather p amb env up).2 = []) := by
  constructor
  · intro h1 h2
    unfold accuGetWeather
    rw [h1, resolveCoord_none, h2]
    rfl
  · intro h1 h2
    unfold accuGetWeather
    rcases hlat : resolveCoord p.latitude amb.latitude with _ | x
    · exact ⟨rfl, Or.inl rfl, rfl⟩
    · rw [h1, resolveCoord_none, h2]
      exact ⟨rfl, Or.inr rfl, rfl⟩

/-- C4 witness: with no explicit and no ambient coordinates the handler
fails on latitude with zero outbound calls. -/
theorem missingCoordinateFailure_witness :
    (AccuParams.mk none none TempUnit.fahrenheit).latitude = none
    ∧ (AmbientGeo.mk none none).latitude = none
    ∧ accuGetWeather ⟨none, none, TempUnit.fahrenheit⟩ ⟨none, none⟩ ⟨some "key"⟩
        ⟨Except.error ErrVal.vNull, Except.error ErrVal.vNull⟩
      = ({ isError := true, text := "Latitude is required and could not be found" }, []) :=
  ⟨rfl, rfl, (missingCoordinateFailure ⟨none, none, TempUnit.fahrenheit⟩ ⟨none, none⟩
    ⟨some "key"⟩ ⟨Except.error ErrVal.vNull, Except.error ErrVal.vNull⟩).1 rfl rfl⟩

/-- C5: a country-mode invocation whose geocoding response has an absent or
empty `results` array returns `isError: true` with the message "Country not
found", and the weather provider is never called (only the geocoding call
appears in the trace). -/
theorem countryNotFound (countryParam ambientHeader : Option String)
    (geo : GeoData) (wx : CountryWx) (c : String)
    (hc : resolveCountry countryParam ambientHeader = some c) (hne : c ≠ "")
    (hg : geo.results = none ∨ geo.results = some []) :
    countryGetWeather countryParam ambientHeader geo wx
      = ({ isError := true, text := "Country not found" }, [HttpCall.openMeteoGeocoding])
    ∧ HttpCall.openMeteoForecast ∉ (countryGetWeather countryParam ambientHeader geo wx).2 := by
  have h : countryGetWeather countryParam ambientHeader geo wx
      = ({ isError := true, text := "Country not found" }, [HttpCall.openMeteoGeocoding]) := by
    unfold countryGetWeather
    rw [hc]
    show countryAfterResolve c geo wx = _
    unfold countryAfterResolve
    rw [if_neg hne]
    rcases hg with hg | hg <;> rw [hg]
  refine ⟨h, ?_⟩
  rw [h]
  decide

/-- C5 witness: an explicit country with an empty geocoding result list. -/
theorem countryNotFound_witness :
    resolveCountry (some "Atlantis") none = some "Atlantis"
    ∧ countryGetWeather (some "Atlantis") none ⟨some []⟩ ⟨none⟩
      = ({ isError := true, text := "Country not found" }, [HttpCall.openMeteoGeocoding]) :=
  ⟨rfl, (countryNotFound (some "Atlantis") none ⟨some []⟩ ⟨none⟩ "Atlantis"
    rfl (by decide) (Or.inr rfl)).1⟩

/-- C6: the error-message extraction function agrees everywhere with the
rule stated by the spec — the string `message` field of an object failure
verbatim, a plain-string failure itself, and exactly "Unknown Error"
otherwise (the out-of-band `console.error` logging is an effect outside the
embedding). -/
theorem errorMessageExtraction (e : ErrVal) : getErrorMessage e = errorMessageSpec e := by
  cases e with
  | vStr s => rfl
  | vNum q => rfl
  | vBool b => rfl
  | vNull => rfl
  | vUndefined => rfl
  | vObj m =>
    rcases m with _ | v
    · rfl
    · cases v <;> rfl
  | vFunc m =>
    rcases m with _ | v
    · rfl
    · cases v <;> rfl

/-- C7: with a falsy (absent or empty) `ACCUWEATHER_API_KEY` binding the
handler makes no outbound HTTP call whatsoever, and whenever both
coordinates resolve it fails with exactly the descriptive invariant message
naming the key. -/
theorem missingApiKeyFailure (p : AccuParams) (amb : AmbientGeo) (env : AccuEnv)
    (up : AccuUpstream) (hkey : apiKeyTruthy env = false) :
    (accuGetWeather p amb env up).2 = []
    ∧ (resolveCoord p.latitude amb.latitude ≠ none →
       resolveCoord p.longitude amb.longitude ≠ none →
       accuGetWeather p amb env up
         = ({ isError := true, text := "ACCUWEATHER_API_KEY is required" }, [])) := by
  unfold accuGetWeather
  rcases hlat : resolveCoord p.latitude amb.latitude with _ | x
  · exact ⟨rfl, fun h _ => absurd rfl h⟩
  · rcases hlong : resolveCoord p.longitude amb.longitude with _ | y
    · exact ⟨rfl, fun _ h => absurd rfl h⟩
    · rw [if_pos hkey]
      exact ⟨rfl, fun _ _ => rfl⟩

/-- C7 witness: explicit coordinates with an unbound API key. -/
theorem missingApiKeyFailure_witness :
    apiKeyTruthy ⟨none⟩ = false
    ∧ accuGetWeather ⟨some 1, some 2, TempUnit.celsius⟩ ⟨none, none⟩ ⟨none⟩
        ⟨Except.error ErrVal.vNull, Except.error ErrVal.vNull⟩
      = ({ isError := true, text := "ACCUWEATHER_API_KEY is required" }, []) :=
  ⟨rfl, (missingApiKeyFailure ⟨some 1, some 2, TempUnit.celsius⟩ ⟨none, none⟩ ⟨none⟩
    ⟨Except.error ErrVal.vNull, Except.error ErrVal.vNull⟩ rfl).2
    (by simp [resolveCoord]) (by simp [resolveCoord])⟩

/-- C8: both formatting steps are deterministic — identical
(observation, unit, location) triples produce byte-identical output text;
the embedded formatters are pure functions of exactly these inputs, as the
source formatting expressions read no other state. -/
theorem formattingDeterministic (city city2 country country2 : String)
    (cur cur2 : OmCurrent) (cond cond2 : AccuConditions) (unit unit2 : TempUnit)
    (h1 : city = city2) (h2 : country = country2) (h3 : cur = cur2)
    (h4 : cond = cond2) (h5 : unit = unit2) :
    omFormatText city country cur unit = omFormatText city2 country2 cur2 unit2
    ∧ accuFormatText city country cond unit = accuFormatText city2 country2 cond2 unit2 := by
  subst h1 h2 h3 h4 h5
  exact ⟨rfl, rfl⟩

/-- C8 witness: determinism at one concrete triple. -/
theorem formattingDeterministic_witness :
    omFormatText "London" "United Kingdom" ⟨76/5, 70, 123/10, 3⟩ TempUnit.celsius
      = omFormatText "London" "United Kingdom" ⟨76/5, 70, 123/10, 3⟩ TempUnit.celsius
    ∧ accuFormatText "London" "United Kingdom" zeroHumidityInput TempUnit.celsius
      = accuFormatText "London" "United Kingdom" zeroHumidityInput TempUnit.celsius :=
  formattingDeterministic "London" "London" "United Kingdom" "United Kingdom"
    ⟨76/5, 70, 123/10, 3⟩ ⟨76/5, 70, 123/10, 3⟩ zeroHumidityInput zeroHumidityInput
    TempUnit.celsius TempUnit.celsius rfl rfl rfl rfl rfl

/-- C9: a present `RelativeHumidity` of `0` produces no humidity bullet in
the AccuWeather output — the template decides inclusion by JS truthiness of
the value, so the line collapses to the empty string exactly as for an
absent field, and no line of the template begins with the humidity bullet. -/
theorem humidityZeroTruthiness (city country : String) (cond : AccuConditions)
    (unit : TempUnit) (h : cond.RelativeHumidity = some 0) :
    accuHumidityLine cond.RelativeHumidity = ""
    ∧ accuFormatLines city country cond unit
        = accuFormatLines city country { cond with RelativeHumidity := none } unit
    ∧ ∀ l ∈ accuFormatLines city country cond unit,
        beginsWith "• Humidity:".data l.data = false := by
  have hline : accuHumidityLine cond.RelativeHumidity = "" := by
    rw [h]
    rfl
  refine ⟨hline, ?_, ?_⟩
  · unfold accuFormatLines
    rw [hline]
    simp [accuHumidityLine]
  · intro l hl
    unfold accuFormatLines at hl
    rw [hline] at hl
    simp only [List.mem_cons, List.not_mem_nil, or_false] at hl
    rcases hl with rfl | rfl | rfl | rfl | rfl | rfl | rfl
    · decide
    · simp only [String.data_append, List.append_assoc]
      exact beginsWith_eq_false_of_clash _ _ _ (by decide)
    · simp only [String.data_append, List.append_assoc]
      exact beginsWith_eq_false_of_clash _ _ _ (by decide)
    · decide
    · rcases hw : cond.Wind with _ | wd
      · rw [accuWindLine]
        decide
      · rw [accuWindLine]
        simp only [String.data_append, List.append_assoc]
        exact beginsWith_eq_false_of_clash _ _ _ (by decide)
    · simp only [String.data_append, List.append_assoc]
      exact beginsWith_eq_false_of_clash _ _ _ (by decide)
    · decide

/-- C9 witness: a concrete observation carrying `RelativeHumidity = 0`
yields an empty humidity line. -/
theorem humidityZeroTruthiness_witness :
    zeroHumidityInput.RelativeHumidity = some 0
    ∧ accuHumidityLine zeroHumidityInput.RelativeHumidity = "" :=
  ⟨rfl, (humidityZeroTruthiness "London" "United Kingdom" zeroHumidityInput
    TempUnit.celsius rfl).1⟩

/-- C10: whenever `weatherResultSchema.parse` succeeds, the parsed value has
a `current` object, so the guard `if (!weatherData?.current)` is false and
the "Weather data not available or invalid API response" branch is
unreachable. -/
theorem schemaGuardUnreachable (j w : Json)
    (h : weatherResultSchemaParse j = some w) :
    omMissingCurrentGuard w = false ∧ omGuardResult w = none := by
  have hw : ∃ c, (∃ fs, c = Json.obj fs) ∧ w = Json.obj [("current", c)] := by
    cases j with
    | obj fields =>
      simp only [weatherResultSchemaParse] at h
      rcases hcur : fields.lookup "current" with _ | cj
      · rw [hcur] at h
        simp at h
      · rw [hcur] at h
        have h2 : Option.map (fun c => Json.obj [("current", c)]) (parseOmCurrentJson cj)
            = some w := h
        rcases hpc : parseOmCurrentJson cj with _ | c
        · rw [hpc] at h2
          simp at h2
        · rw [hpc] at h2
          exact ⟨c, parseOmCurrentJson_shape cj c hpc, (Option.some.inj h2).symm⟩
    | num q => simp [weatherResultSchemaParse] at h
    | str s => simp [weatherResultSchemaParse] at h
    | bool b => simp [weatherResultSchemaParse] at h
    | null => simp [weatherResultSchemaParse] at h
    | arr items => simp [weatherResultSchemaParse] at h
  obtain ⟨c, ⟨fs, rfl⟩, rfl⟩ := hw
  have hguard : omMissingCurrentGuard (Json.obj [("current", Json.obj fs)]) = false := rfl
  exact ⟨hguard, by simp [omGuardResult, hguard]⟩

/-- C10 witness: the guard is not taken on a concrete validated response. -/
theorem schemaGuardUnreachable_witness :
    weatherResultSchemaParse sampleWeatherJson = some sampleWeatherParsed
    ∧ omMissingCurrentGuard sampleWeatherParsed = false
    ∧ omGuardResult sampleWeatherParsed = none :=
  ⟨rfl, (schemaGuardUnreachable sampleWeatherJson sampleWeatherParsed rfl).1,
   (schemaGuardUnreachable sampleWeatherJson sampleWeatherParsed rfl).2⟩

end WeatherMcp
